import Mathlib

/-!
Shallow embedding of `src/main.py` (MercadoLibre Uruguay apartment scraper,
class `BuscadorMercadoLibre`).  Pure string/regex helpers are translated
directly; the HTTP session, BeautifulSoup and the visited-urls file are
modelled at their boundaries (a container is the bundle of selector results
BeautifulSoup would return, an HTTP oracle maps url and attempt index to a
response, the visited file is the list of lines appended so far).
-/

/-- Python `\s` on the ASCII range: `[ \t\n\r\f\v]` (all texts handled by the
scraper's regexes are ASCII). -/
def esEspacio (c : Char) : Bool :=
  c = ' ' || c = '\t' || c = '\n' || c = '\r' || c = '\x0b' || c = '\x0c'

/-- Character class `[\d.]` of `_RE_PRECIO_PESOS`. -/
def esDigitoOPunto (c : Char) : Bool :=
  c.isDigit || c = '.'

/-- Value of a decimal digit string, as Python `int` computes it on an
all-digits argument. -/
def natOfDigits (ds : List Char) : Nat :=
  ds.foldl (fun acc c => acc * 10 + (c.toNat - '0'.toNat)) 0

/-- `re.search(r"\$\s*([\d.]+)", texto)` (`_RE_PRECIO_PESOS`): leftmost `'$'`
followed by optional whitespace and a nonempty run of `[\d.]`; returns
`m.group(1)`.  (`\s*` and `[\d.]+` use disjoint character classes, so the
regex engine's backtracking never changes the outcome.) -/
def searchPesos : List Char → Option (List Char)
  | [] => none
  | c :: rest =>
    if c = '$' then
      let ds := (rest.dropWhile esEspacio).takeWhile esDigitoOPunto
      if ds = [] then searchPesos rest else some ds
    else searchPesos rest

/-- `re.search(r"US\$\s*(\d+)", texto)` (`_RE_PRECIO_USD`): leftmost `US$`
followed by optional whitespace and a nonempty digit run; returns
`m.group(1)`. -/
def searchUSD : List Char → Option (List Char)
  | [] => none
  | c :: rest =>
    if c = 'U' then
      match rest with
      | 'S' :: '$' :: tl =>
        let ds := (tl.dropWhile esEspacio).takeWhile Char.isDigit
        if ds = [] then searchUSD rest else some ds
      | _ => searchUSD rest
    else searchUSD rest

/-- `re.search` for `(\d+)\s*<kw>` (shape of `_RE_DORM`, whose literal tail is
`dorm`): leftmost maximal digit run followed, after optional whitespace, by
the literal `kw`; returns the digit group.  The scraper applies it to
already-lowercased text, which realises the `re.I` flag. -/
def searchNumPalabra (kw : List Char) : List Char → Option (List Char)
  | [] => none
  | c :: rest =>
    if c.isDigit then
      let ds := c :: rest.takeWhile Char.isDigit
      let after := (rest.dropWhile Char.isDigit).dropWhile esEspacio
      if kw.isPrefixOf after then some ds else searchNumPalabra kw rest
    else searchNumPalabra kw rest

/-- `re.search(r"(\d+)\s*m[²2]", texto)` (`_RE_AREA`), on already-lowercased
text (realising `re.I`); returns the digit group. -/
def searchArea : List Char → Option (List Char)
  | [] => none
  | c :: rest =>
    if c.isDigit then
      let ds := c :: rest.takeWhile Char.isDigit
      let after := (rest.dropWhile Char.isDigit).dropWhile esEspacio
      match after with
      | 'm' :: x :: _ => if x = '²' || x = '2' then some ds else searchArea rest
      | _ => searchArea rest
    else searchArea rest

/-- `BuscadorMercadoLibre._extraer_precio`.  `Except.error ()` models the
uncaught `ValueError` of `int("")` when the peso group consists of dots
only; every other path returns normally. -/
def extraer_precio (texto : String) : Except Unit (Option Nat) :=
  if texto = "" then .ok none
  else
    match searchPesos texto.toList with
    | some g =>
      let ds := g.filter (fun c => c ≠ '.')
      if ds = [] then .error () else .ok (some (natOfDigits ds))
    | none =>
      match searchUSD texto.toList with
      | some g => .ok (some (natOfDigits g * 40))
      | none => .ok none

/-- Python substring test `pat in texto`. -/
def contieneSub (texto pat : List Char) : Bool :=
  if pat.isPrefixOf texto then true
  else
    match texto with
    | [] => false
    | _ :: rest => contieneSub rest pat

/-- Python `str.lower()` on the ASCII range (every text the scraper lowers
is ASCII). -/
def minusculas (s : List Char) : List Char :=
  s.map Char.toLower

/-- `BuscadorMercadoLibre._tiene_palabras_excluidas`: lowercases the text and
tests each configured word for verbatim substring membership. -/
def tiene_palabras_excluidas (palabras : List String) (texto : String) : Bool :=
  let t := minusculas texto.toList
  palabras.any (fun p => contieneSub t p.toList)

/-- `BuscadorMercadoLibre._slug_from_url`:
`url.split("/")[-1].split("_", 1)[0].replace("-", " ")` — the segment after
the last `/`, truncated at the first `_`, hyphens turned into spaces. -/
def slug_from_url (url : String) : String :=
  let tras := (url.toList.reverse.takeWhile (fun c => c ≠ '/')).reverse
  let antes := tras.takeWhile (fun c => c ≠ '_')
  String.mk (antes.map (fun c => if c = '-' then ' ' else c))

/-- CPython `int(s)` on the strings this scraper feeds it: optional
surrounding whitespace, optional sign, then a nonempty ASCII digit run;
`none` models the `ValueError` raised otherwise. -/
def intDeCadena (s : List Char) : Option Int :=
  let s1 := s.dropWhile esEspacio
  let s2 := (s1.reverse.dropWhile esEspacio).reverse
  match s2 with
  | '-' :: ds => if ds ≠ [] && ds.all Char.isDigit then some (-(natOfDigits ds : Int)) else none
  | '+' :: ds => if ds ≠ [] && ds.all Char.isDigit then some ((natOfDigits ds : Int)) else none
  | ds => if ds ≠ [] && ds.all Char.isDigit then some ((natOfDigits ds : Int)) else none

/-- The inner helper `parse_miles` of `_extraer_apartamento_ml`, at its
string call site (`precio_alquiler`): `int(str(valor).replace('.', ''))`;
`none` models the `ValueError` that the surrounding `except` turns into a
discarded container. -/
def parse_miles_str (valor : String) : Option Int :=
  intDeCadena (valor.toList.filter (fun c => c ≠ '.'))

/-- Digit grouping of the inner helper `format_miles` of
`_extraer_apartamento_ml`: `f"{numero:,}"` inserts a separator every three
digits from the right (input here is the reversed digit list). -/
def sepMiles : List Char → List Char
  | d1 :: d2 :: d3 :: d4 :: rest => d1 :: d2 :: d3 :: ',' :: sepMiles (d4 :: rest)
  | l => l

/-- The inner helper `format_miles` of `_extraer_apartamento_ml`:
`f"{numero:,}".replace(',', '.')`. -/
def format_miles (n : Int) : String :=
  let grouped := (sepMiles (toString n.natAbs).toList.reverse).reverse
  (if n < 0 then "-" else "") ++
    String.mk (grouped.map (fun c => if c = ',' then '.' else c))

/-- One listing container, as a bundle of BeautifulSoup query results (the
library boundary).  `textOf sel` is `select_one(sel).get_text(" ", strip=True)`
(`none` when no truthy tag matches), `attrOf sel a` is
`select_one(sel).get(a, "").strip()`, `rawTextOf sel` is `select_one(sel).text`
and `fullText` is `cont.get_text(" ", strip=True)`. -/
structure Container where
  textOf : String → Option String
  attrOf : String → String → Option String
  rawTextOf : String → Option String
  fullText : String

/-- The dict returned by `_extraer_apartamento_ml`, one field per key.
`precio_total` is the key `_cumple_criterios_ml` reads at line 476; the
extractor never writes that key (it writes `precio_total_formatted`), so
extraction always leaves it `none`. -/
structure Apartamento where
  titulo : String
  precio_alquiler : String
  query_barrio : String
  precio_total_formatted : Option String
  ubicacion : String
  dormitorios : Option Nat
  area : String
  gastos_comunes : Option Nat
  url : String
  precio_total : Option Int
deriving DecidableEq, Repr

/-- The configuration the constructor loads from `config.json` and caches on
`self` (`palabras_excluir`, `max_precio = int(url_config['precio_maximo'])`,
`dormitorios = int(url_config['numero_dormitorios'])`,
`duplicados['filtrar_duplicados']`, `gastos_comunes['obtener_gastos_comunes']`,
`max_paginas`, plus the remaining URL-template parameters). -/
structure Config where
  palabras_excluir : List String
  max_precio : Nat
  dormitorios : Nat
  filtrar_duplicados : Bool
  obtener_gastos_comunes : Bool
  max_paginas : Nat
  departamento : String
  precio_minimo : Nat
  ultimas24hrs : Bool
deriving DecidableEq, Repr

/-- The mutable duplicate-tracking state: `self.apartamentos_visitados`
(a set, modelled as a duplicate-free list) and the lines of the visited
file (`archivo_visitados`, append-only). -/
structure Estado where
  visitados : List String
  archivo : List String
deriving DecidableEq, Repr

/-- Python `set.add`: a no-op when the element is already present. -/
def agregarSet (s : List String) (u : String) : List String :=
  if s.contains u then s else s ++ [u]

/-- `BuscadorMercadoLibre._guardar_apartamento_visitado`: early return when
duplicate filtering is off; otherwise append the url to the visited file and
add it to the in-memory set (the file write is modelled as succeeding). -/
def guardar_apartamento_visitado (cfg : Config) (st : Estado) (url : String) : Estado :=
  if !cfg.filtrar_duplicados then st
  else { visitados := agregarSet st.visitados url, archivo := st.archivo ++ [url] }

/-- `BuscadorMercadoLibre._es_apartamento_nuevo`. -/
def es_apartamento_nuevo (filtrar : Bool) (visitados : List String) (url : String) : Bool :=
  if !filtrar then true
  else !(visitados.contains url)

/-- `BuscadorMercadoLibre._pick_first` with `attr=None`: first selector whose
tag yields nonempty text. -/
def pick_first_text (cont : Container) : List String → String
  | [] => ""
  | sel :: rest =>
    match cont.textOf sel with
    | none => pick_first_text cont rest
    | some txt => if txt = "" then pick_first_text cont rest else txt

/-- `BuscadorMercadoLibre._pick_first` with an `attr`: first selector whose
tag yields a nonempty stripped attribute value. -/
def pick_first_attr (cont : Container) (sels : List String) (attr : String) : String :=
  match sels with
  | [] => ""
  | sel :: rest =>
    match cont.attrOf sel attr with
    | none => pick_first_attr cont rest attr
    | some v => if v = "" then pick_first_attr cont rest attr else v

/-- The `precio_alquiler` computation of `_extraer_apartamento_ml` (lines
397-408): fraction + optional `,cents` when the andes fraction tag is
present, otherwise first-match-wins over the two legacy price selectors. -/
def precio_alquiler_de (cont : Container) : String :=
  match cont.rawTextOf "span.andes-money-amount__fraction" with
  | some f =>
    f ++ (match cont.rawTextOf "span.andes-money-amount__cents" with
          | some c => "," ++ c
          | none => "")
  | none =>
    pick_first_text cont
      ["span.price-tag-fraction", "span.ui-search-price__part--second-line"]

/-- `BuscadorMercadoLibre._extraer_apartamento_ml`.  `enrich` is the network
oracle standing for `_extraer_gastos_comunes_desde_pagina`; `none` as overall
result models the `except` branch (the only failing operation on this path is
`parse_miles` on the price text, whose `ValueError` the handler swallows,
discarding the container). -/
def extraer_apartamento (cfg : Config) (enrich : String → Option Nat)
    (cont : Container) (barrio : String) : Option Apartamento :=
  let url := String.mk ((pick_first_attr cont ["a.ui-search-link", "a"] "href").toList.takeWhile
    (fun c => c ≠ '#'))
  let titulo0 := pick_first_text cont
    ["h2.ui-search-item__title", "div.ui-search-item__highlight-label",
     "a.ui-search-link[title]", "h2.ui-search-item__group__element"]
  let titulo := if titulo0 = "" then slug_from_url url else titulo0
  let precio_alquiler := precio_alquiler_de cont
  let ubicacion := pick_first_text cont
    ["span.ui-search-item__location", "span.ui-search-item__location-label"]
  let texto := minusculas cont.fullText.toList
  let dormitorios := (searchNumPalabra "dorm".toList texto).map natOfDigits
  let area :=
    match searchArea texto with
    | some ds => String.mk ds ++ " m2"
    | none => ""
  let gastos_comunes :=
    if cfg.obtener_gastos_comunes && url ≠ "" then enrich url else none
  match parse_miles_str precio_alquiler with
  | none => none
  | some pt =>
    let ptn : Int := pt + (match gastos_comunes with | some g => (g : Int) | none => 0)
    some { titulo := titulo, precio_alquiler := precio_alquiler,
           query_barrio := barrio,
           precio_total_formatted := some (format_miles ptn),
           ubicacion := ubicacion, dormitorios := dormitorios, area := area,
           gastos_comunes := gastos_comunes, url := url, precio_total := none }

/-- The price-ceiling reject of `_cumple_criterios_ml` (line 476):
`apt.get("precio_total") and apt["precio_total"] > self.max_precio`
(an absent key or the int `0` is falsy). -/
def precio_total_excede (max_precio : Nat) (precio_total : Option Int) : Bool :=
  match precio_total with
  | none => false
  | some n => if n = 0 then false else decide ((max_precio : Int) < n)

/-- The room-count reject of `_cumple_criterios_ml` (line 478):
`self.dormitorios and apt.get("dormitorios") and apt["dormitorios"] != self.dormitorios`
(Python truthiness: a zero target or a zero/absent candidate count short-circuits
to no rejection). -/
def dormitorios_rechaza (objetivo : Nat) (dormitorios : Option Nat) : Bool :=
  if objetivo = 0 then false
  else
    match dormitorios with
    | none => false
    | some d => if d = 0 then false else decide (d ≠ objetivo)

/-- `BuscadorMercadoLibre._cumple_criterios_ml`. -/
def cumple_criterios (cfg : Config) (visitados : List String) (apt : Apartamento) : Bool :=
  if tiene_palabras_excluidas cfg.palabras_excluir apt.titulo then false
  else if precio_total_excede cfg.max_precio apt.precio_total then false
  else if dormitorios_rechaza cfg.dormitorios apt.dormitorios then false
  else if !(es_apartamento_nuevo cfg.filtrar_duplicados visitados apt.url) then false
  else true

/-- `BuscadorMercadoLibre._parsear_pagina_ml`: per container, extract; when
extraction succeeds and the candidate passes `_cumple_criterios_ml`, record
its url as visited (`apt.get("url", "")` is the `url` field, always present)
and then append the candidate to the page's result list. -/
def parsear_pagina (cfg : Config) (enrich : String → Option Nat) (barrio : String) :
    List Container → Estado → List Apartamento × Estado
  | [], st => ([], st)
  | cont :: rest, st =>
    match extraer_apartamento cfg enrich cont barrio with
    | none => parsear_pagina cfg enrich barrio rest st
    | some apt =>
      if cumple_criterios cfg st.visitados apt then
        let st' := guardar_apartamento_visitado cfg st apt.url
        let r := parsear_pagina cfg enrich barrio rest st'
        (apt :: r.1, r.2)
      else parsear_pagina cfg enrich barrio rest st

/-- The byte content of one HTTP 200 body, abstracted to the two views the
scraper takes of it: `len(response.content)` and the container list
`soup.select("li.ui-search-layout__item, .ui-search-result")`. -/
structure Pagina where
  tamano : Nat
  contenedores : List Container

/-- One `self.session.get(url, timeout=30)` outcome inside the retry loop of
`buscar_en_url`: either a response with its status code, or a raised
`requests.RequestException`. -/
inductive RespuestaHTTP where
  | respuesta (status : Nat) (pagina : Pagina)
  | excepcion

/-- Outcome of the 3-attempt request loop of `buscar_en_url` (lines 314-331):
`hardStop` is the `return resultados` taken on a 403/404 status; `done r`
is falling out of the loop (by `break` on a 200, or after 3 attempts) with
`r` the value of the `response` variable (`none` when never assigned). -/
inductive ResultadoIntentos where
  | hardStop
  | done (respuesta : Option (Nat × Pagina))

/-- The retry loop `for intento in range(3)` of `buscar_en_url`: `get` maps
the attempt index to that attempt's outcome; an exception leaves `response`
holding its previous value; 429 and other non-200 statuses sleep and retry;
403/404 return immediately.  Called with fuel 3, attempt 0, response `none`. -/
def intentos (get : Nat → RespuestaHTTP) :
    Nat → Nat → Option (Nat × Pagina) → ResultadoIntentos
  | 0, _, resp => .done resp
  | fuel + 1, intento, resp =>
    match get intento with
    | .excepcion => intentos get fuel (intento + 1) resp
    | .respuesta code pag =>
      if code = 200 then .done (some (code, pag))
      else if code = 429 then intentos get fuel (intento + 1) (some (code, pag))
      else if code = 403 || code = 404 then .hardStop
      else intentos get fuel (intento + 1) (some (code, pag))

/-- Page-N URL of `buscar_en_url` (line 310): the base URL verbatim for page
1, otherwise the path-embedded offset `_Desde_{(pagina-1)*50}`. -/
def url_pagina (url_base : String) (pagina : Nat) : String :=
  if pagina = 1 then url_base
  else url_base ++ "_Desde_" ++ toString ((pagina - 1) * 50)

/-- The pagination loop `for pagina in range(1, self.max_paginas + 1)` of
`buscar_en_url`, carrying the accumulated `resultados` and the dedup state.
`get` is the HTTP oracle (url, attempt index ↦ outcome).  A hard stop returns
the accumulated results; a missing/non-200 final response or an undersized
body breaks; a page with zero accepted listings breaks after extending. -/
def buscar_paginas (cfg : Config) (enrich : String → Option Nat)
    (get : String → Nat → RespuestaHTTP) (uBase barrio : String) :
    Nat → Nat → List Apartamento → Estado → List Apartamento × Estado
  | 0, _, res, st => (res, st)
  | fuel + 1, pagina, res, st =>
    match intentos (get (url_pagina uBase pagina)) 3 0 none with
    | .hardStop => (res, st)
    | .done none => (res, st)
    | .done (some (code, pag)) =>
      if code ≠ 200 then (res, st)
      else if pag.tamano < 1000 then (res, st)
      else
        let r := parsear_pagina cfg enrich barrio pag.contenedores st
        if r.1.isEmpty then (res ++ r.1, r.2)
        else buscar_paginas cfg enrich get uBase barrio fuel (pagina + 1) (res ++ r.1) r.2

/-- `BuscadorMercadoLibre.buscar_en_url`. -/
def buscar_en_url (cfg : Config) (enrich : String → Option Nat)
    (get : String → Nat → RespuestaHTTP) (uBase barrio : String)
    (st : Estado) : List Apartamento × Estado :=
  buscar_paginas cfg enrich get uBase barrio cfg.max_paginas 1 [] st

/-- `URL_TEMPLATE.format(...)` as built by `buscar_en_barrio`. -/
def url_base (cfg : Config) (barrio : String) : String :=
  let filtro_fecha := if cfg.ultimas24hrs then "_PublishedToday_YES" else ""
  "https://listado.mercadolibre.com.uy/inmuebles/apartamentos/" ++
    toString cfg.dormitorios ++ "-dormitorios/" ++ cfg.departamento ++ "/" ++
    barrio ++ "_PriceRange_" ++ toString cfg.precio_minimo ++ "UYU-" ++
    toString cfg.max_precio ++ "UYU" ++ filtro_fecha ++ "_NoIndex_True"

/-- `BuscadorMercadoLibre.buscar_en_barrio`. -/
def buscar_en_barrio (cfg : Config) (enrich : String → Option Nat)
    (get : String → Nat → RespuestaHTTP) (barrio : String)
    (st : Estado) : List Apartamento × Estado :=
  buscar_en_url cfg enrich get (url_base cfg barrio) barrio st

/-- `BuscadorMercadoLibre.buscar`: iterate the configured neighborhoods in
order (dict items as a key-slug list), extending `todos_resultados`; the pure
model has no uncaught per-neighborhood exceptions, so the `except: continue`
is not reachable. -/
def buscar (cfg : Config) (enrich : String → Option Nat)
    (get : String → Nat → RespuestaHTTP) :
    List (String × String) → Estado → List Apartamento × Estado
  | [], st => ([], st)
  | (_, valor) :: rest, st =>
    let r := buscar_en_barrio cfg enrich get valor st
    let r2 := buscar cfg enrich get rest r.2
    (r.1 ++ r2.1, r2.2)

/-- A minimal container carrying one link, one title tag and one andes price
fraction (the shape of a typical current-markup search result). -/
def contSimple (href titulo frac fullTexto : String) : Container where
  textOf := fun sel => if sel = "h2.ui-search-item__title" then some titulo else none
  attrOf := fun sel attr =>
    if sel = "a.ui-search-link" && attr = "href" then some href else none
  rawTextOf := fun sel =>
    if sel = "span.andes-money-amount__fraction" then some frac else none
  fullText := fullTexto

/-- Enrichment oracle for runs with maintenance-fee fetching disabled or
failing: every detail-page fetch yields nothing. -/
def enrichNada : String → Option Nat := fun _ => none

/-- Baseline configuration for the concrete scenarios (price ceiling 35000,
two-bedroom target, duplicate filtering on, fee fetching off). -/
def cfgBase : Config where
  palabras_excluir := ["monoambiente"]
  max_precio := 35000
  dormitorios := 2
  filtrar_duplicados := true
  obtener_gastos_comunes := false
  max_paginas := 3
  departamento := "montevideo"
  precio_minimo := 10000
  ultimas24hrs := false

/-- Enrichment oracle returning a 10000 maintenance fee for every listing. -/
def enrichC1 : String → Option Nat := fun _ => some 10000

/-- Config for the price-ceiling scenario: fee fetching on, ceiling 35000. -/
def cfgC1 : Config := { cfgBase with obtener_gastos_comunes := true }

/-- Container whose rent is 50.000 and whose detail page reports 10000 in
fees: computed total 60.000, well over the 35000 ceiling. -/
def contC1 : Container :=
  contSimple "https://apartamento.example/MLU-1" "Lindo apartamento" "50.000"
    "Lindo apartamento 2 dormitorios 60 m2"

/-- The record `_extraer_apartamento_ml` produces for `contC1`. -/
def aptC1 : Apartamento where
  titulo := "Lindo apartamento"
  precio_alquiler := "50.000"
  query_barrio := "pocitos"
  precio_total_formatted := some "60.000"
  ubicacion := ""
  dormitorios := some 2
  area := "60 m2"
  gastos_comunes := some 10000
  url := "https://apartamento.example/MLU-1"
  precio_total := none

/-- Listing already accepted in some earlier run (used for the dedup claim). -/
def aptC3 : Apartamento where
  titulo := "Apto luminoso"
  precio_alquiler := "20.000"
  query_barrio := "pocitos"
  precio_total_formatted := some "20.000"
  ubicacion := ""
  dormitorios := some 2
  area := ""
  gastos_comunes := none
  url := "https://apartamento.example/MLU-3"
  precio_total := none

/-- Config whose exclusion list holds a word with an uppercase letter. -/
def cfgC4 : Config := { cfgBase with palabras_excluir := ["Mono"], dormitorios := 0 }

/-- Container titled with the excluded word in a different case. -/
def contC4 : Container :=
  contSimple "https://apartamento.example/MLU-4" "MONOAMBIENTE precioso" "20.000"
    "MONOAMBIENTE precioso"

/-- The record `_extraer_apartamento_ml` produces for `contC4`. -/
def aptC4 : Apartamento where
  titulo := "MONOAMBIENTE precioso"
  precio_alquiler := "20.000"
  query_barrio := "pocitos"
  precio_total_formatted := some "20.000"
  ubicacion := ""
  dormitorios := none
  area := ""
  gastos_comunes := none
  url := "https://apartamento.example/MLU-4"
  precio_total := none

/-- Config with an all-lowercase excluded word (witness for the amended
exclusion-word claim). -/
def cfgC4w : Config := { cfgBase with palabras_excluir := ["mono"], dormitorios := 0 }

/-- Container whose price tag reads `Consultar precio`: it matches neither
currency regex and `parse_miles` raises on it. -/
def contC5 : Container where
  textOf := fun sel =>
    if sel = "h2.ui-search-item__title" then some "Apto a estrenar"
    else if sel = "span.price-tag-fraction" then some "Consultar precio"
    else none
  attrOf := fun sel attr =>
    if sel = "a.ui-search-link" && attr = "href" then
      some "https://apartamento.example/MLU-5"
    else none
  rawTextOf := fun _ => none
  fullText := "Apto a estrenar 2 dormitorios"

/-- Config with duplicate filtering disabled (`--sin-filtro-duplicados`). -/
def cfgC7 : Config := { cfgBase with filtrar_duplicados := false }

/-- Container for the recording-at-emission scenario. -/
def contC7 : Container :=
  contSimple "https://apartamento.example/MLU-7" "Apto centrico" "20.000"
    "Apto centrico 2 dormitorios"

/-- The record `_extraer_apartamento_ml` produces for `contC7`. -/
def aptC7 : Apartamento where
  titulo := "Apto centrico"
  precio_alquiler := "20.000"
  query_barrio := "cordon"
  precio_total_formatted := some "20.000"
  ubicacion := ""
  dormitorios := some 2
  area := ""
  gastos_comunes := none
  url := "https://apartamento.example/MLU-7"
  precio_total := none

/-- Container whose flattened text reads `0 dormitorios`: the room count is
extracted as the known value 0. -/
def contC9 : Container :=
  contSimple "https://apartamento.example/MLU-9" "Apto atipico" "20.000"
    "Apto atipico 0 dormitorios"

/-- The record `_extraer_apartamento_ml` produces for `contC9`. -/
def aptC9 : Apartamento where
  titulo := "Apto atipico"
  precio_alquiler := "20.000"
  query_barrio := "pocitos"
  precio_total_formatted := some "20.000"
  ubicacion := ""
  dormitorios := some 0
  area := ""
  gastos_comunes := none
  url := "https://apartamento.example/MLU-9"
  precio_total := none

/-- Container for the pagination scenarios (rent 30.000, under the ceiling). -/
def contC6 : Container :=
  contSimple "https://apartamento.example/MLU-6" "Apto parque" "30.000"
    "Apto parque 2 dormitorios"

/-- The record `_extraer_apartamento_ml` produces for `contC6`. -/
def aptC6 : Apartamento where
  titulo := "Apto parque"
  precio_alquiler := "30.000"
  query_barrio := "pocitos"
  precio_total_formatted := some "30.000"
  ubicacion := ""
  dormitorios := some 2
  area := ""
  gastos_comunes := none
  url := "https://apartamento.example/MLU-6"
  precio_total := none

/-- An empty response body (used for blocked pages). -/
def pagVacia : Pagina := ⟨0, []⟩

/-- Page body holding one listing container, comfortably over the 1000-byte
soft-block threshold. -/
def pagC6 : Pagina := ⟨2000, [contC6]⟩

/-- Five-page neighborhood config for the hard-stop scenario. -/
def cfgC6 : Config := { cfgBase with max_paginas := 5 }

/-- HTTP oracle: page 1 of the pocitos listing succeeds, everything else is
blocked with 403. -/
def getC6 : String → Nat → RespuestaHTTP := fun url _ =>
  if url = url_pagina (url_base cfgC6 "pocitos") 1 then .respuesta 200 pagC6
  else .respuesta 403 pagVacia

/-- Two-page config for the idempotence witness run. -/
def cfgC8 : Config := { cfgBase with max_paginas := 2 }

/-- HTTP oracle for the idempotence witness: page 1 succeeds, later pages
are gone (404). -/
def getC8 : String → Nat → RespuestaHTTP := fun url _ =>
  if url = url_pagina (url_base cfgC8 "pocitos") 1 then .respuesta 200 pagC6
  else .respuesta 404 pagVacia

/-- The single configured neighborhood of the witness runs. -/
def barriosW : List (String × String) := [("pocitos", "pocitos")]

/-- Page body listing the same apartment twice (duplicated container). -/
def pagC10 : Pagina := ⟨1500, [contC6, contC6]⟩

/-- HTTP oracle for the within-run dedup witness: page 1 carries a duplicated
container, later pages are gone. -/
def getC10 : String → Nat → RespuestaHTTP := fun url _ =>
  if url = url_pagina (url_base cfgBase "pocitos") 1 then .respuesta 200 pagC10
  else .respuesta 404 pagVacia

/-- `{aptC9 with dormitorios := some 3}`: a known, nonzero room count that
differs from the configured target 2. -/
def aptC9w : Apartamento := { aptC9 with dormitorios := some 3 }

theorem mem_agregarSet_self (s : List String) (u : String) : u ∈ agregarSet s u := by
  unfold agregarSet
  split
  · next h => exact List.elem_iff.mp h
  · exact List.mem_append_right _ (List.mem_singleton.mpr rfl)

theorem mem_agregarSet_of_mem {s : List String} {v : String} (u : String)
    (h : v ∈ s) : v ∈ agregarSet s u := by
  unfold agregarSet
  split
  · exact h
  · exact List.mem_append_left _ h

theorem guardar_visitados_mono (cfg : Config) (st : Estado) (url : String)
    {u : String} (h : u ∈ st.visitados) :
    u ∈ (guardar_apartamento_visitado cfg st url).visitados := by
  unfold guardar_apartamento_visitado
  split
  · exact h
  · exact mem_agregarSet_of_mem url h

theorem guardar_mem_self (cfg : Config) (st : Estado) (url : String)
    (hf : cfg.filtrar_duplicados = true) :
    url ∈ (guardar_apartamento_visitado cfg st url).visitados := by
  unfold guardar_apartamento_visitado
  simp [hf]
  exact mem_agregarSet_self st.visitados url

theorem guardar_archivo_self (cfg : Config) (st : Estado) (url : String)
    (hf : cfg.filtrar_duplicados = true) :
    url ∈ (guardar_apartamento_visitado cfg st url).archivo := by
  unfold guardar_apartamento_visitado
  simp [hf]

theorem guardar_archivo_append (cfg : Config) (st : Estado) (url : String) :
    ∃ l, (guardar_apartamento_visitado cfg st url).archivo = st.archivo ++ l := by
  unfold guardar_apartamento_visitado
  split
  · exact ⟨[], (List.append_nil _).symm⟩
  · exact ⟨[url], rfl⟩

theorem cumple_criterios_eq (cfg : Config) (vis : List String) (apt : Apartamento) :
    cumple_criterios cfg vis apt =
      (!tiene_palabras_excluidas cfg.palabras_excluir apt.titulo &&
       !precio_total_excede cfg.max_precio apt.precio_total &&
       !dormitorios_rechaza cfg.dormitorios apt.dormitorios &&
       es_apartamento_nuevo cfg.filtrar_duplicados vis apt.url) := by
  unfold cumple_criterios
  split_ifs with h1 h2 h3 h4 <;> simp_all

theorem cumple_visited_false (cfg : Config) (vis : List String) (apt : Apartamento)
    (hf : cfg.filtrar_duplicados = true) (h : apt.url ∈ vis) :
    cumple_criterios cfg vis apt = false := by
  rw [cumple_criterios_eq]
  have : es_apartamento_nuevo cfg.filtrar_duplicados vis apt.url = false := by
    unfold es_apartamento_nuevo
    simp [hf, List.elem_iff, h]
  simp [this]

theorem cumple_true_fresh (cfg : Config) (vis : List String) (apt : Apartamento)
    (hf : cfg.filtrar_duplicados = true) (h : cumple_criterios cfg vis apt = true) :
    apt.url ∉ vis := by
  intro hmem
  rw [cumple_visited_false cfg vis apt hf hmem] at h
  exact Bool.false_ne_true h

theorem es_nuevo_antitone (f : Bool) (vis vis' : List String) (url : String)
    (hsub : vis ⊆ vis') (h : es_apartamento_nuevo f vis' url = true) :
    es_apartamento_nuevo f vis url = true := by
  cases f with
  | false => simp [es_apartamento_nuevo]
  | true =>
    simp only [es_apartamento_nuevo, Bool.not_true, Bool.false_eq_true, if_false,
      Bool.not_eq_true', List.contains_eq_any_beq, List.any_eq_false] at h ⊢
    intro x hx
    exact h x (hsub hx)

theorem cumple_antitone (cfg : Config) (vis vis' : List String) (apt : Apartamento)
    (hsub : vis ⊆ vis') (h : cumple_criterios cfg vis' apt = true) :
    cumple_criterios cfg vis apt = true := by
  rw [cumple_criterios_eq] at h ⊢
  simp only [Bool.and_eq_true] at h ⊢
  exact ⟨h.1, es_nuevo_antitone _ _ _ _ hsub h.2⟩

theorem parsear_visitados_mono (cfg : Config) (enrich : String → Option Nat)
    (barrio : String) (conts : List Container) :
    ∀ st : Estado, ∀ u ∈ st.visitados,
      u ∈ (parsear_pagina cfg enrich barrio conts st).2.visitados := by
  induction conts with
  | nil => intro st u h; simpa [parsear_pagina] using h
  | cons c rest ih =>
    intro st u h
    cases hx : extraer_apartamento cfg enrich c barrio with
    | none =>
      simp only [parsear_pagina, hx]
      exact ih st u h
    | some apt =>
      by_cases hc : cumple_criterios cfg st.visitados apt = true
      · simp only [parsear_pagina, hx, hc, if_true]
        exact ih _ u (guardar_visitados_mono cfg st apt.url h)
      · simp only [parsear_pagina, hx, hc, if_false]
        exact ih st u h

theorem parsear_archivo_append (cfg : Config) (enrich : String → Option Nat)
    (barrio : String) (conts : List Container) :
    ∀ st : Estado, ∃ l,
      (parsear_pagina cfg enrich barrio conts st).2.archivo = st.archivo ++ l := by
  induction conts with
  | nil => intro st; exact ⟨[], by simp [parsear_pagina]⟩
  | cons c rest ih =>
    intro st
    cases hx : extraer_apartamento cfg enrich c barrio with
    | none =>
      simpa only [parsear_pagina, hx] using ih st
    | some apt =>
      by_cases hc : cumple_criterios cfg st.visitados apt = true
      · obtain ⟨l1, hl1⟩ := guardar_archivo_append cfg st apt.url
        obtain ⟨l2, hl2⟩ := ih (guardar_apartamento_visitado cfg st apt.url)
        refine ⟨l1 ++ l2, ?_⟩
        simp only [parsear_pagina, hx, hc, if_true]
        rw [hl2, hl1, List.append_assoc]
      · simpa only [parsear_pagina, hx, hc, if_false] using ih st

theorem parsear_archivo_mono (cfg : Config) (enrich : String → Option Nat)
    (barrio : String) (conts : List Container) (st : Estado)
    {u : String} (h : u ∈ st.archivo) :
    u ∈ (parsear_pagina cfg enrich barrio conts st).2.archivo := by
  obtain ⟨l, hl⟩ := parsear_archivo_append cfg enrich barrio conts st
  rw [hl]
  exact List.mem_append_left _ h

theorem parsear_res_spec (cfg : Config) (enrich : String → Option Nat)
    (barrio : String) (hf : cfg.filtrar_duplicados = true) (conts : List Container) :
    ∀ st : Estado, ∀ a ∈ (parsear_pagina cfg enrich barrio conts st).1,
      a.url ∉ st.visitados ∧
      a.url ∈ (parsear_pagina cfg enrich barrio conts st).2.visitados ∧
      a.url ∈ (parsear_pagina cfg enrich barrio conts st).2.archivo := by
  induction conts with
  | nil => intro st a ha; simp [parsear_pagina] at ha
  | cons c rest ih =>
    intro st a ha
    cases hx : extraer_apartamento cfg enrich c barrio with
    | none =>
      simp only [parsear_pagina, hx] at ha ⊢
      exact ih st a ha
    | some apt =>
      by_cases hc : cumple_criterios cfg st.visitados apt = true
      · simp only [parsear_pagina, hx, hc, if_true] at ha ⊢
        rcases List.mem_cons.mp ha with rfl | ha'
        · refine ⟨cumple_true_fresh cfg st.visitados a hf hc, ?_, ?_⟩
          · exact parsear_visitados_mono cfg enrich barrio rest _ a.url
              (guardar_mem_self cfg st a.url hf)
          · exact parsear_archivo_mono cfg enrich barrio rest _
              (guardar_archivo_self cfg st a.url hf)
        · obtain ⟨h1, h2, h3⟩ := ih _ a ha'
          exact ⟨fun hmem => h1 (guardar_visitados_mono cfg st apt.url hmem), h2, h3⟩
      · simp only [parsear_pagina, hx, hc, if_false] at ha ⊢
        exact ih st a ha

theorem parsear_nodup (cfg : Config) (enrich : String → Option Nat)
    (barrio : String) (hf : cfg.filtrar_duplicados = true) (conts : List Container) :
    ∀ st : Estado,
      ((parsear_pagina cfg enrich barrio conts st).1.map (fun a => a.url)).Nodup := by
  induction conts with
  | nil => intro st; simp [parsear_pagina]
  | cons c rest ih =>
    intro st
    cases hx : extraer_apartamento cfg enrich c barrio with
    | none =>
      simp only [parsear_pagina, hx]
      exact ih st
    | some apt =>
      by_cases hc : cumple_criterios cfg st.visitados apt = true
      · simp only [parsear_pagina, hx, hc, if_true, List.map_cons, List.nodup_cons]
        constructor
        · intro hmem
          obtain ⟨b, hb, hburl⟩ := List.mem_map.mp hmem
          have hspec := parsear_res_spec cfg enrich barrio hf rest _ b hb
          apply hspec.1
          rw [hburl]
          exact guardar_mem_self cfg st apt.url hf
        · exact ih _
      · simp only [parsear_pagina, hx, hc, if_false]
        exact ih st

theorem bp_visitados_mono (cfg : Config) (enrich : String → Option Nat)
    (get : String → Nat → RespuestaHTTP) (uB barrio : String) :
    ∀ (fuel pag : Nat) (res : List Apartamento) (st : Estado), ∀ u ∈ st.visitados,
      u ∈ (buscar_paginas cfg enrich get uB barrio fuel pag res st).2.visitados := by
  intro fuel
  induction fuel with
  | zero => intro pag res st u h; simpa [buscar_paginas] using h
  | succ n ih =>
    intro pag res st u h
    cases hi : intentos (get (url_pagina uB pag)) 3 0 none with
    | hardStop => simpa [buscar_paginas, hi] using h
    | done resp =>
      cases resp with
      | none => simpa [buscar_paginas, hi] using h
      | some cp =>
        obtain ⟨code, pagina⟩ := cp
        by_cases h200 : code = 200
        · subst h200
          by_cases hsize : pagina.tamano < 1000
          · simpa [buscar_paginas, hi, hsize] using h
          · have hpar := parsear_visitados_mono cfg enrich barrio pagina.contenedores st u h
            by_cases he :
                (parsear_pagina cfg enrich barrio pagina.contenedores st).1.isEmpty = true
            · simpa [buscar_paginas, hi, hsize, he] using hpar
            · simp only [buscar_paginas, hi, hsize, he, if_false, ite_false,
                ne_eq, not_true_eq_false, if_neg, Bool.false_eq_true]
              simpa [buscar_paginas, hi, hsize, he] using ih (pag + 1) _ _ u hpar
        · simpa [buscar_paginas, hi, h200] using h

theorem bp_spec (cfg : Config) (enrich : String → Option Nat)
    (get : String → Nat → RespuestaHTTP) (uB barrio : String)
    (hf : cfg.filtrar_duplicados = true) :
    ∀ (fuel pag : Nat) (res : List Apartamento) (st : Estado),
      (∀ a ∈ res, a.url ∈ st.visitados) →
      (res.map (fun a => a.url)).Nodup →
      (((buscar_paginas cfg enrich get uB barrio fuel pag res st).1.map
          (fun a => a.url)).Nodup) ∧
      (∀ a ∈ (buscar_paginas cfg enrich get uB barrio fuel pag res st).1,
        a.url ∈ (buscar_paginas cfg enrich get uB barrio fuel pag res st).2.visitados) ∧
      (∀ a ∈ (buscar_paginas cfg enrich get uB barrio fuel pag res st).1,
        a ∈ res ∨ a.url ∉ st.visitados) := by
  intro fuel
  induction fuel with
  | zero =>
    intro pag res st hres hnd
    refine ⟨by simpa [buscar_paginas] using hnd, ?_, ?_⟩
    · intro a ha
      simp only [buscar_paginas] at ha ⊢
      exact hres a ha
    · intro a ha
      simp only [buscar_paginas] at ha
      exact Or.inl ha
  | succ n ih =>
    intro pag res st hres hnd
    cases hi : intentos (get (url_pagina uB pag)) 3 0 none with
    | hardStop =>
      refine ⟨by simpa [buscar_paginas, hi] using hnd, ?_, ?_⟩
      · intro a ha
        simp only [buscar_paginas, hi] at ha ⊢
        exact hres a ha
      · intro a ha
        simp only [buscar_paginas, hi] at ha
        exact Or.inl ha
    | done resp =>
      cases resp with
      | none =>
        refine ⟨by simpa [buscar_paginas, hi] using hnd, ?_, ?_⟩
        · intro a ha
          simp only [buscar_paginas, hi] at ha ⊢
          exact hres a ha
        · intro a ha
          simp only [buscar_paginas, hi] at ha
          exact Or.inl ha
      | some cp =>
        obtain ⟨code, pagina⟩ := cp
        by_cases h200 : code = 200
        case neg =>
          refine ⟨by simpa [buscar_paginas, hi, h200] using hnd, ?_, ?_⟩
          · intro a ha
            simp only [buscar_paginas, hi] at ha ⊢
            simp only [h200, ne_eq, not_false_eq_true, if_true, ite_true] at ha ⊢
            exact hres a ha
          · intro a ha
            simp only [buscar_paginas, hi] at ha
            simp only [h200, ne_eq, not_false_eq_true, if_true, ite_true] at ha
            exact Or.inl ha
        case pos =>
        subst h200
        by_cases hsize : pagina.tamano < 1000
        case pos =>
          refine ⟨by simpa [buscar_paginas, hi, hsize] using hnd, ?_, ?_⟩
          · intro a ha
            simp only [buscar_paginas, hi, hsize] at ha ⊢
            simp only [ne_eq, not_true_eq_false, if_false, ite_false, if_pos hsize,
              Bool.false_eq_true] at ha ⊢
            exact hres a ha
          · intro a ha
            simp only [buscar_paginas, hi, hsize] at ha
            simp only [ne_eq, not_true_eq_false, if_false, ite_false, if_pos hsize,
              Bool.false_eq_true] at ha
            exact Or.inl ha
        case neg =>
        have hresNew : ∀ a ∈ res ++ (parsear_pagina cfg enrich barrio pagina.contenedores st).1,
            a.url ∈ (parsear_pagina cfg enrich barrio pagina.contenedores st).2.visitados := by
          intro a ha
          rcases List.mem_append.mp ha with h1 | h1
          · exact parsear_visitados_mono cfg enrich barrio pagina.contenedores st a.url (hres a h1)
          · exact (parsear_res_spec cfg enrich barrio hf pagina.contenedores st a h1).2.1
        have hndNew : ((res ++ (parsear_pagina cfg enrich barrio pagina.contenedores st).1).map
            (fun a => a.url)).Nodup := by
          rw [List.map_append, List.nodup_append]
          refine ⟨hnd, parsear_nodup cfg enrich barrio hf pagina.contenedores st, ?_⟩
          intro x hx hy
          obtain ⟨a, ha, rfl⟩ := List.mem_map.mp hx
          obtain ⟨b, hb, hurl⟩ := List.mem_map.mp hy
          have hbfresh := (parsear_res_spec cfg enrich barrio hf pagina.contenedores st b hb).1
          rw [hurl] at hbfresh
          exact hbfresh (hres a ha)
        have hfreshNew : ∀ a ∈ res ++ (parsear_pagina cfg enrich barrio pagina.contenedores st).1,
            a ∈ res ∨ a.url ∉ st.visitados := by
          intro a ha
          rcases List.mem_append.mp ha with h1 | h1
          · exact Or.inl h1
          · exact Or.inr (parsear_res_spec cfg enrich barrio hf pagina.contenedores st a h1).1
        by_cases he : (parsear_pagina cfg enrich barrio pagina.contenedores st).1.isEmpty = true
        case pos =>
          refine ⟨?_, ?_, ?_⟩
          · simpa [buscar_paginas, hi, hsize, he] using hndNew
          · intro a ha
            simp only [buscar_paginas, hi, hsize] at ha ⊢
            simp only [ne_eq, not_true_eq_false, if_false, ite_false, if_neg hsize, he,
              if_true, ite_true, Bool.false_eq_true] at ha ⊢
            exact hresNew a ha
          · intro a ha
            simp only [buscar_paginas, hi, hsize] at ha
            simp only [ne_eq, not_true_eq_false, if_false, ite_false, if_neg hsize, he,
              if_true, ite_true, Bool.false_eq_true] at ha
            exact hfreshNew a ha
        case neg =>
          obtain ⟨hnd2, hmem2, hfresh2⟩ :=
            ih (pag + 1) (res ++ (parsear_pagina cfg enrich barrio pagina.contenedores st).1)
              (parsear_pagina cfg enrich barrio pagina.contenedores st).2 hresNew hndNew
          refine ⟨?_, ?_, ?_⟩
          · simpa [buscar_paginas, hi, hsize, he] using hnd2
          · intro a ha
            simp only [buscar_paginas, hi, hsize] at ha ⊢
            simp only [ne_eq, not_true_eq_false, if_false, ite_false, if_neg hsize, he,
              Bool.false_eq_true] at ha ⊢
            exact hmem2 a ha
          · intro a ha
            simp only [buscar_paginas, hi, hsize] at ha
            simp only [ne_eq, not_true_eq_false, if_false, ite_false, if_neg hsize, he,
              Bool.false_eq_true] at ha
            rcases hfresh2 a ha with h1 | h1
            · rcases hfreshNew a h1 with h2 | h2
              · exact Or.inl h2
              · exact Or.inr h2
            · refine Or.inr fun hmem => h1 ?_
              exact parsear_visitados_mono cfg enrich barrio pagina.contenedores st a.url hmem

theorem buscar_visitados_mono (cfg : Config) (enrich : String → Option Nat)
    (get : String → Nat → RespuestaHTTP) :
    ∀ (bs : List (String × String)) (st : Estado), ∀ u ∈ st.visitados,
      u ∈ (buscar cfg enrich get bs st).2.visitados := by
  intro bs
  induction bs with
  | nil => intro st u h; simpa [buscar] using h
  | cons b rest ih =>
    obtain ⟨k, v⟩ := b
    intro st u h
    simp only [buscar, buscar_en_barrio, buscar_en_url]
    exact ih _ u (bp_visitados_mono cfg enrich get (url_base cfg v) v
      cfg.max_paginas 1 [] st u h)

theorem buscar_spec (cfg : Config) (enrich : String → Option Nat)
    (get : String → Nat → RespuestaHTTP) (hf : cfg.filtrar_duplicados = true) :
    ∀ (bs : List (String × String)) (st : Estado),
      (((buscar cfg enrich get bs st).1.map (fun a => a.url)).Nodup) ∧
      (∀ a ∈ (buscar cfg enrich get bs st).1,
        a.url ∈ (buscar cfg enrich get bs st).2.visitados) ∧
      (∀ a ∈ (buscar cfg enrich get bs st).1, a.url ∉ st.visitados) := by
  intro bs
  induction bs with
  | nil =>
    intro st
    refine ⟨by simp [buscar], ?_, ?_⟩ <;> intro a ha <;> simp [buscar] at ha
  | cons b rest ih =>
    obtain ⟨k, v⟩ := b
    intro st
    obtain ⟨nd1, mem1, fresh1⟩ :=
      bp_spec cfg enrich get (url_base cfg v) v hf cfg.max_paginas 1 [] st
        (by intro a ha; simp at ha) (by simp)
    obtain ⟨nd2, mem2, fresh2⟩ :=
      ih (buscar_paginas cfg enrich get (url_base cfg v) v cfg.max_paginas 1 [] st).2
    refine ⟨?_, ?_, ?_⟩
    · simp only [buscar, buscar_en_barrio, buscar_en_url, List.map_append, List.nodup_append]
      refine ⟨nd1, nd2, ?_⟩
      intro x hx hy
      obtain ⟨a, ha, rfl⟩ := List.mem_map.mp hx
      obtain ⟨c, hc, hcurl⟩ := List.mem_map.mp hy
      have hcfresh := fresh2 c hc
      rw [hcurl] at hcfresh
      exact hcfresh (mem1 a ha)
    · intro a ha
      simp only [buscar, buscar_en_barrio, buscar_en_url] at ha ⊢
      rcases List.mem_append.mp ha with h1 | h1
      · exact buscar_visitados_mono cfg enrich get rest _ a.url (mem1 a h1)
      · exact mem2 a h1
    · intro a ha
      simp only [buscar, buscar_en_barrio, buscar_en_url] at ha
      rcases List.mem_append.mp ha with h1 | h1
      · rcases fresh1 a h1 with h2 | h2
        · simp at h2
        · exact h2
      · exact fun hmem => fresh2 a h1
          (bp_visitados_mono cfg enrich get (url_base cfg v) v cfg.max_paginas 1 [] st
            a.url hmem)

theorem parsear_idem (cfg : Config) (enrich : String → Option Nat)
    (barrio : String) (hf : cfg.filtrar_duplicados = true) (conts : List Container) :
    ∀ st st' : Estado,
      (parsear_pagina cfg enrich barrio conts st).2.visitados ⊆ st'.visitados →
      parsear_pagina cfg enrich barrio conts st' = ([], st') := by
  induction conts with
  | nil => intro st st' _; simp [parsear_pagina]
  | cons c rest ih =>
    intro st st' hsub
    cases hx : extraer_apartamento cfg enrich c barrio with
    | none =>
      simp only [parsear_pagina, hx]
      exact ih st st' (by simpa only [parsear_pagina, hx] using hsub)
    | some apt =>
      by_cases hc : cumple_criterios cfg st.visitados apt = true
      · have hsub' : (parsear_pagina cfg enrich barrio rest
            (guardar_apartamento_visitado cfg st apt.url)).2.visitados ⊆ st'.visitados := by
          simpa only [parsear_pagina, hx, hc, if_true] using hsub
        have hurl : apt.url ∈ st'.visitados :=
          hsub' (parsear_visitados_mono cfg enrich barrio rest _ apt.url
            (guardar_mem_self cfg st apt.url hf))
        have hc' : cumple_criterios cfg st'.visitados apt = false :=
          cumple_visited_false cfg st'.visitados apt hf hurl
        simp only [parsear_pagina, hx, hc', if_false, Bool.false_eq_true]
        exact ih _ st' hsub'
      · have hst : st.visitados ⊆ st'.visitados := fun u hu =>
          hsub (parsear_visitados_mono cfg enrich barrio (c :: rest) st u hu)
        have hc' : cumple_criterios cfg st'.visitados apt = false := by
          cases hcc : cumple_criterios cfg st'.visitados apt
          · rfl
          · exact absurd (cumple_antitone cfg st.visitados st'.visitados apt hst hcc) hc
        simp only [parsear_pagina, hx, hc', if_false, Bool.false_eq_true]
        exact ih st st' (by simpa only [parsear_pagina, hx, hc, if_false] using hsub)

theorem bp_idem (cfg : Config) (enrich : String → Option Nat)
    (get : String → Nat → RespuestaHTTP) (uB barrio : String)
    (hf : cfg.filtrar_duplicados = true) :
    ∀ (fuel pag : Nat) (res0 : List Apartamento) (st : Estado)
      (res' : List Apartamento) (st' : Estado),
      (buscar_paginas cfg enrich get uB barrio fuel pag res0 st).2.visitados ⊆ st'.visitados →
      buscar_paginas cfg enrich get uB barrio fuel pag res' st' = (res', st') := by
  intro fuel
  cases fuel with
  | zero => intro pag res0 st res' st' _; simp [buscar_paginas]
  | succ n =>
    intro pag res0 st res' st' hsub
    cases hi : intentos (get (url_pagina uB pag)) 3 0 none with
    | hardStop => simp [buscar_paginas, hi]
    | done resp =>
      cases resp with
      | none => simp [buscar_paginas, hi]
      | some cp =>
        obtain ⟨code, pagina⟩ := cp
        by_cases h200 : code = 200
        case neg => simp [buscar_paginas, hi, h200]
        case pos =>
        subst h200
        by_cases hsize : pagina.tamano < 1000
        case pos => simp [buscar_paginas, hi, hsize]
        case neg =>
        have hr2 : (parsear_pagina cfg enrich barrio pagina.contenedores st).2.visitados ⊆
            st'.visitados := by
          intro u hu
          apply hsub
          by_cases he :
              (parsear_pagina cfg enrich barrio pagina.contenedores st).1.isEmpty = true
          · simpa [buscar_paginas, hi, hsize, he] using hu
          · simp only [buscar_paginas, hi, hsize, he, ne_eq, not_true_eq_false, if_false,
              ite_false, Bool.false_eq_true]
            simpa [buscar_paginas, hi, hsize, he] using
              bp_visitados_mono cfg enrich get uB barrio n (pag + 1) _ _ u hu
        have hpar : parsear_pagina cfg enrich barrio pagina.contenedores st' = ([], st') :=
          parsear_idem cfg enrich barrio hf pagina.contenedores st st' hr2
        simp [buscar_paginas, hi, hsize, hpar]

theorem buscar_idem (cfg : Config) (enrich : String → Option Nat)
    (get : String → Nat → RespuestaHTTP) (hf : cfg.filtrar_duplicados = true) :
    ∀ (bs : List (String × String)) (st st' : Estado),
      (buscar cfg enrich get bs st).2.visitados ⊆ st'.visitados →
      buscar cfg enrich get bs st' = ([], st') := by
  intro bs
  induction bs with
  | nil => intro st st' _; simp [buscar]
  | cons b rest ih =>
    obtain ⟨k, v⟩ := b
    intro st st' hsub
    have hr : (buscar_paginas cfg enrich get (url_base cfg v) v
        cfg.max_paginas 1 [] st).2.visitados ⊆ st'.visitados := by
      intro u hu
      apply hsub
      simp only [buscar, buscar_en_barrio, buscar_en_url]
      exact buscar_visitados_mono cfg enrich get rest _ u hu
    have h1 : buscar_paginas cfg enrich get (url_base cfg v) v
        cfg.max_paginas 1 [] st' = ([], st') :=
      bp_idem cfg enrich get (url_base cfg v) v hf cfg.max_paginas 1 [] st [] st' hr
    have h2 : buscar cfg enrich get rest st' = ([], st') := by
      apply ih _ st'
      intro u hu
      apply hsub
      simp only [buscar, buscar_en_barrio, buscar_en_url]
      exact hu
    simp [buscar, buscar_en_barrio, buscar_en_url, h1, h2]

/-- C1: the claim says a candidate whose computed total price (rent plus
maintenance fee) exceeds the configured ceiling is rejected by
`_cumple_criterios_ml`.  The code computes the total into
`precio_total_formatted` only, never into the `precio_total` key the filter
reads, so the concrete candidate below — total 60.000 against a 35000
ceiling — is accepted: the price-ceiling filter is inactive on every
extracted candidate. -/
theorem C1_filtro_precio_inactivo :
    extraer_apartamento cfgC1 enrichC1 contC1 "pocitos" = some aptC1 ∧
    aptC1.precio_total_formatted = some "60.000" ∧
    aptC1.precio_total = none ∧
    cfgC1.max_precio < 60000 ∧
    cumple_criterios cfgC1 [] aptC1 = true := by
  refine ⟨by decide, rfl, rfl, by decide, by decide⟩

/-- C2: the claim says `"$ 45.000" ↦ 45000`, `"US$ 1000" ↦ 40000` and
non-matching text `↦ null` in `_extraer_precio`.  The first and third hold,
but on `"US$ 1000"` the peso regex `\$\s*([\d.]+)` matches the `$ 1000`
suffix first, so the function returns 1000 and the USD conversion branch is
unreachable. -/
theorem C2_parseo_precios :
    extraer_precio "$ 45.000" = .ok (some 45000) ∧
    extraer_precio "US$ 1000" = .ok (some 1000) ∧
    extraer_precio "precio a consultar" = .ok none :=
  ⟨rfl, rfl, rfl⟩

/-- C3: with duplicate filtering enabled, a candidate whose url is already in
the visited set is rejected by `_cumple_criterios_ml`; with it disabled, the
dedup membership check vanishes and acceptance is the conjunction of the
remaining three criteria, whatever the visited set holds. -/
theorem C3_dedup_visitados (cfg : Config) (vis : List String) (apt : Apartamento)
    (hdup : apt.url ∈ vis) :
    (cfg.filtrar_duplicados = true → cumple_criterios cfg vis apt = false) ∧
    (cfg.filtrar_duplicados = false → ∀ vis' : List String,
      cumple_criterios cfg vis' apt =
        (!tiene_palabras_excluidas cfg.palabras_excluir apt.titulo &&
         !precio_total_excede cfg.max_precio apt.precio_total &&
         !dormitorios_rechaza cfg.dormitorios apt.dormitorios)) := by
  constructor
  · intro hf
    exact cumple_visited_false cfg vis apt hf hdup
  · intro hf vis'
    rw [cumple_criterios_eq]
    have hnuevo : es_apartamento_nuevo cfg.filtrar_duplicados vis' apt.url = true := by
      simp [es_apartamento_nuevo, hf]
    rw [hnuevo, Bool.and_true]

/-- Witness for C3: a concrete already-visited listing is rejected with
dedup on (`cfgBase`) and accepted with dedup off (`cfgC7`). -/
theorem C3_dedup_visitados_witness :
    aptC3.url ∈ ["https://apartamento.example/MLU-3"] ∧
    cumple_criterios cfgBase ["https://apartamento.example/MLU-3"] aptC3 = false ∧
    cumple_criterios cfgC7 ["https://apartamento.example/MLU-3"] aptC3 = true :=
  ⟨by decide,
   (C3_dedup_visitados cfgBase ["https://apartamento.example/MLU-3"] aptC3 (by decide)).1 rfl,
   ((C3_dedup_visitados cfgC7 ["https://apartamento.example/MLU-3"] aptC3 (by decide)).2 rfl
     ["https://apartamento.example/MLU-3"]).trans (by decide)⟩

/-- C4 counterexample: the claim says the exclusion match succeeds whatever
the case of the configured word, but `_tiene_palabras_excluidas` lowercases
only the title.  With configured word `"Mono"` the extracted candidate titled
`MONOAMBIENTE precioso` contains the word case-insensitively yet is
accepted. -/
theorem C4_contraejemplo :
    cfgC4.palabras_excluir = ["Mono"] ∧
    contieneSub (minusculas aptC4.titulo.toList) (minusculas "Mono".toList) = true ∧
    extraer_apartamento cfgC4 enrichNada contC4 "pocitos" = some aptC4 ∧
    cumple_criterios cfgC4 [] aptC4 = true := by
  refine ⟨rfl, by decide, by decide, by decide⟩

/-- C4 amended: when the lowercased title contains a configured exclusion
word verbatim as a substring (so title case never matters, but the configured
word is matched exactly as written), `_cumple_criterios_ml` rejects. -/
theorem C4_palabras_excluidas (cfg : Config) (vis : List String) (apt : Apartamento)
    (h : ∃ p ∈ cfg.palabras_excluir,
      contieneSub (minusculas apt.titulo.toList) p.toList = true) :
    cumple_criterios cfg vis apt = false := by
  have ht : tiene_palabras_excluidas cfg.palabras_excluir apt.titulo = true := by
    simp only [tiene_palabras_excluidas, List.any_eq_true]
    exact h
  simp [cumple_criterios, ht]

/-- Witness for the amended C4: lowercase configured word `"mono"`,
uppercase title. -/
theorem C4_palabras_excluidas_witness :
    (∃ p ∈ cfgC4w.palabras_excluir,
      contieneSub (minusculas aptC4.titulo.toList) p.toList = true) ∧
    cumple_criterios cfgC4w [] aptC4 = false :=
  ⟨by decide, C4_palabras_excluidas cfgC4w [] aptC4 (by decide)⟩

/-- C5 counterexample: the claim says a container whose price text matches
neither currency pattern still yields a record with a null rent price.  In
the code the raw price text goes through `parse_miles` (`int(...)`), which
raises on `Consultar precio`; the `except` handler then discards the whole
container, so no record is produced at all. -/
theorem C5_contraejemplo :
    precio_alquiler_de contC5 = "Consultar precio" ∧
    searchPesos "Consultar precio".toList = none ∧
    searchUSD "Consultar precio".toList = none ∧
    extraer_apartamento cfgBase enrichNada contC5 "centro" = none := by
  refine ⟨by decide, by decide, by decide, by decide⟩

/-- C5 amended: `_extraer_apartamento_ml` never consults the currency
patterns.  A container is discarded exactly when the inner `parse_miles`
helper (`int()` after stripping dots) fails on the raw price text — in
particular for empty price text or non-numeric text such as
`Consultar precio`; and whenever a record is emitted, its
`precio_alquiler` field holds the raw price text itself (never a null). -/
theorem C5_precio_no_parseable_descarta (cfg : Config) (enrich : String → Option Nat)
    (cont : Container) (barrio : String) :
    (extraer_apartamento cfg enrich cont barrio = none ↔
      parse_miles_str (precio_alquiler_de cont) = none) ∧
    (∀ apt : Apartamento, extraer_apartamento cfg enrich cont barrio = some apt →
      apt.precio_alquiler = precio_alquiler_de cont) := by
  constructor
  · cases h : parse_miles_str (precio_alquiler_de cont) with
    | none => simp [extraer_apartamento, h]
    | some pt => simp [extraer_apartamento, h]
  · intro apt hapt
    cases h : parse_miles_str (precio_alquiler_de cont) with
    | none => simp [extraer_apartamento, h] at hapt
    | some pt =>
      simp only [extraer_apartamento, h] at hapt
      rw [← Option.some.inj hapt]

/-- Witness for the amended C5 at the `Consultar precio` container: the
parse fails, so the discard characterization yields no record. -/
theorem C5_precio_no_parseable_descarta_witness :
    parse_miles_str (precio_alquiler_de contC5) = none ∧
    extraer_apartamento cfgBase enrichNada contC5 "centro" = none :=
  ⟨by decide,
   (C5_precio_no_parseable_descarta cfgBase enrichNada contC5 "centro").1.mpr (by decide)⟩

theorem bp_hardStop (cfg : Config) (enrich : String → Option Nat)
    (get : String → Nat → RespuestaHTTP) (uB barrio : String)
    (fuel pag : Nat) (res : List Apartamento) (st : Estado)
    (h : intentos (get (url_pagina uB pag)) 3 0 none = .hardStop) :
    buscar_paginas cfg enrich get uB barrio (fuel + 1) pag res st = (res, st) := by
  simp [buscar_paginas, h]

theorem bp_pagina_ok (cfg : Config) (enrich : String → Option Nat)
    (get : String → Nat → RespuestaHTTP) (uB barrio : String)
    (fuel pag : Nat) (res : List Apartamento) (st : Estado) (pagina : Pagina)
    (h : intentos (get (url_pagina uB pag)) 3 0 none = .done (some (200, pagina)))
    (hsize : ¬ pagina.tamano < 1000) :
    buscar_paginas cfg enrich get uB barrio (fuel + 1) pag res st =
      (let r := parsear_pagina cfg enrich barrio pagina.contenedores st
       if r.1.isEmpty then (res ++ r.1, r.2)
       else buscar_paginas cfg enrich get uB barrio fuel (pag + 1) (res ++ r.1) r.2) := by
  simp [buscar_paginas, h, hsize]

/-- C6: a 403/404 hard stop inside the retry loop of any page ends the
neighborhood's pagination at once.  Concretely, with a 5-page cap, a 200
page 1 and a hard stop on page 2, `buscar_en_url` returns exactly the
page-1 parse: nothing from later pages, and the conclusion holds for every
HTTP oracle regardless of its behavior on pages 3-5, so no later page can
contribute. -/
theorem C6_corte_duro (cfg : Config) (enrich : String → Option Nat)
    (get : String → Nat → RespuestaHTTP) (uB barrio : String) (st : Estado) (pag : Pagina)
    (h5 : cfg.max_paginas = 5)
    (h1 : intentos (get (url_pagina uB 1)) 3 0 none = .done (some (200, pag)))
    (hsize : ¬ pag.tamano < 1000)
    (h2 : intentos (get (url_pagina uB 2)) 3 0 none = .hardStop) :
    buscar_en_url cfg enrich get uB barrio st =
      parsear_pagina cfg enrich barrio pag.contenedores st := by
  unfold buscar_en_url
  rw [h5, show (5 : Nat) = 4 + 1 from rfl,
    bp_pagina_ok cfg enrich get uB barrio 4 1 [] st pag h1 hsize]
  by_cases he : (parsear_pagina cfg enrich barrio pag.contenedores st).1.isEmpty = true
  · simp [he]
  · simp only [he, Bool.false_eq_true, if_false, ite_false, List.nil_append]
    rw [show (4 : Nat) = 3 + 1 from rfl,
      bp_hardStop cfg enrich get uB barrio 3 2 _ _ h2]

/-- Witness for C6: the concrete oracle `getC6` serves page 1 and blocks
page 2 with 403; pagination returns the page-1 parse only. -/
theorem C6_corte_duro_witness :
    cfgC6.max_paginas = 5 ∧
    intentos (getC6 (url_pagina (url_base cfgC6 "pocitos") 1)) 3 0 none =
      .done (some (200, pagC6)) ∧
    intentos (getC6 (url_pagina (url_base cfgC6 "pocitos") 2)) 3 0 none = .hardStop ∧
    buscar_en_url cfgC6 enrichNada getC6 (url_base cfgC6 "pocitos") "pocitos" ⟨[], []⟩ =
      parsear_pagina cfgC6 enrichNada "pocitos" pagC6.contenedores ⟨[], []⟩ :=
  ⟨rfl, rfl, rfl,
   C6_corte_duro cfgC6 enrichNada getC6 (url_base cfgC6 "pocitos") "pocitos" ⟨[], []⟩ pagC6
     rfl rfl (by decide) rfl⟩

/-- C7 counterexample: with duplicate filtering disabled
(`--sin-filtro-duplicados`), a candidate passes the filter and is emitted
while `_guardar_apartamento_visitado` returns early — neither the in-memory
set nor the visited file records its url. -/
theorem C7_contraejemplo :
    cfgC7.filtrar_duplicados = false ∧
    extraer_apartamento cfgC7 enrichNada contC7 "cordon" = some aptC7 ∧
    cumple_criterios cfgC7 [] aptC7 = true ∧
    parsear_pagina cfgC7 enrichNada "cordon" [contC7] ⟨[], []⟩ = ([aptC7], ⟨[], []⟩) := by
  refine ⟨rfl, by decide, by decide, by decide⟩

/-- C7 amended: with duplicate filtering enabled, every emitted candidate's
url ends up both in the in-memory visited set and in the visited file; the
set only grows (nothing is removed) and the file is append-only; moreover
the recording happens before the candidate is prepended to the page's
result sequence — the state passed to the remainder of the loop already
contains the url. -/
theorem C7_registro_al_emitir (cfg : Config) (enrich : String → Option Nat)
    (barrio : String) (conts : List Container) (st : Estado)
    (hf : cfg.filtrar_duplicados = true) :
    (∀ a ∈ (parsear_pagina cfg enrich barrio conts st).1,
      a.url ∈ (parsear_pagina cfg enrich barrio conts st).2.visitados ∧
      a.url ∈ (parsear_pagina cfg enrich barrio conts st).2.archivo) ∧
    (∀ u ∈ st.visitados, u ∈ (parsear_pagina cfg enrich barrio conts st).2.visitados) ∧
    (∃ l, (parsear_pagina cfg enrich barrio conts st).2.archivo = st.archivo ++ l) ∧
    (∀ (c : Container) (rest : List Container) (apt : Apartamento),
      extraer_apartamento cfg enrich c barrio = some apt →
      cumple_criterios cfg st.visitados apt = true →
      parsear_pagina cfg enrich barrio (c :: rest) st =
        (apt :: (parsear_pagina cfg enrich barrio rest
            (guardar_apartamento_visitado cfg st apt.url)).1,
         (parsear_pagina cfg enrich barrio rest
            (guardar_apartamento_visitado cfg st apt.url)).2) ∧
      apt.url ∈ (guardar_apartamento_visitado cfg st apt.url).visitados ∧
      apt.url ∈ (guardar_apartamento_visitado cfg st apt.url).archivo) := by
  refine ⟨?_, ?_, ?_, ?_⟩
  · intro a ha
    obtain ⟨_, h2, h3⟩ := parsear_res_spec cfg enrich barrio hf conts st a ha
    exact ⟨h2, h3⟩
  · intro u hu
    exact parsear_visitados_mono cfg enrich barrio conts st u hu
  · exact parsear_archivo_append cfg enrich barrio conts st
  · intro c rest apt hx hc
    exact ⟨by simp [parsear_pagina, hx, hc], guardar_mem_self cfg st apt.url hf,
      guardar_archivo_self cfg st apt.url hf⟩

/-- Witness for the amended C7 on a one-container page: the emitted url is
recorded in set and file. -/
theorem C7_registro_al_emitir_witness :
    cfgBase.filtrar_duplicados = true ∧
    aptC7.url ∈ (parsear_pagina cfgBase enrichNada "cordon" [contC7] ⟨[], []⟩).2.visitados ∧
    aptC7.url ∈ (parsear_pagina cfgBase enrichNada "cordon" [contC7] ⟨[], []⟩).2.archivo :=
  ⟨rfl,
   ((C7_registro_al_emitir cfgBase enrichNada "cordon" [contC7] ⟨[], []⟩ rfl).1 aptC7
     (by decide)).1,
   ((C7_registro_al_emitir cfgBase enrichNada "cordon" [contC7] ⟨[], []⟩ rfl).1 aptC7
     (by decide)).2⟩

/-- C8: with duplicate filtering enabled, re-running the whole search against
the final visited state of a first run, with the same HTTP and enrichment
oracles (identical upstream content), accepts zero listings. -/
theorem C8_idempotencia (cfg : Config) (enrich : String → Option Nat)
    (get : String → Nat → RespuestaHTTP) (bs : List (String × String)) (st : Estado)
    (hf : cfg.filtrar_duplicados = true) :
    (buscar cfg enrich get bs ((buscar cfg enrich get bs st).2)).1 = [] := by
  rw [buscar_idem cfg enrich get hf bs st ((buscar cfg enrich get bs st).2)
    (fun u hu => hu)]

/-- Witness for C8: a concrete two-page run over one neighborhood, re-run
from its own final state, accepts nothing. -/
theorem C8_idempotencia_witness :
    cfgC8.filtrar_duplicados = true ∧
    (buscar cfgC8 enrichNada getC8 barriosW
      ((buscar cfgC8 enrichNada getC8 barriosW ⟨[], []⟩).2)).1 = [] :=
  ⟨rfl, C8_idempotencia cfgC8 enrichNada getC8 barriosW ⟨[], []⟩ rfl⟩

/-- C9 counterexample: the claim says any known room count differing from a
nonzero target is rejected, but Python truthiness treats the known count 0
as falsy: the extracted candidate below has room count `some 0 ≠ some 2`
yet is accepted. -/
theorem C9_contraejemplo :
    cfgBase.dormitorios = 2 ∧
    extraer_apartamento cfgBase enrichNada contC9 "pocitos" = some aptC9 ∧
    aptC9.dormitorios = some 0 ∧
    aptC9.dormitorios ≠ none ∧
    aptC9.dormitorios ≠ some cfgBase.dormitorios ∧
    cumple_criterios cfgBase [] aptC9 = true := by
  refine ⟨rfl, by decide, rfl, by decide, by decide, by decide⟩

/-- C9 amended: the room-count check of `_cumple_criterios_ml` rejects
exactly when the configured target is nonzero and the candidate's room count
is known, nonzero and different from the target; a rejection makes the
filter return false, and an unknown room count never rejects. -/
theorem C9_dormitorios (cfg : Config) (vis : List String) (apt : Apartamento) :
    (dormitorios_rechaza cfg.dormitorios apt.dormitorios = true ↔
      cfg.dormitorios ≠ 0 ∧
        ∃ k, apt.dormitorios = some k ∧ k ≠ 0 ∧ k ≠ cfg.dormitorios) ∧
    (dormitorios_rechaza cfg.dormitorios apt.dormitorios = true →
      cumple_criterios cfg vis apt = false) ∧
    (apt.dormitorios = none → dormitorios_rechaza cfg.dormitorios apt.dormitorios = false) := by
  refine ⟨?_, ?_, ?_⟩
  · cases hd : apt.dormitorios with
    | none => simp [dormitorios_rechaza, hd]
    | some d =>
      by_cases h0 : cfg.dormitorios = 0
      · simp [dormitorios_rechaza, h0, hd]
      · by_cases hd0 : d = 0
        · simp [dormitorios_rechaza, h0, hd, hd0]
        · simp [dormitorios_rechaza, h0, hd, hd0]
  · intro h
    rw [cumple_criterios_eq]
    simp [h]
  · intro h
    simp [dormitorios_rechaza, h]

/-- Witness for the amended C9: room count 3 against target 2 rejects. -/
theorem C9_dormitorios_witness :
    dormitorios_rechaza cfgBase.dormitorios aptC9w.dormitorios = true ∧
    cumple_criterios cfgBase [] aptC9w = false :=
  ⟨by decide, (C9_dormitorios cfgBase [] aptC9w).2.1 (by decide)⟩

/-- C10: with duplicate filtering enabled, the aggregated output of a whole
run (all neighborhoods, all pages) never contains two listings with the same
url: each accepted url enters the visited set at emission time and later
occurrences fail the membership check. -/
theorem C10_urls_sin_duplicados (cfg : Config) (enrich : String → Option Nat)
    (get : String → Nat → RespuestaHTTP) (bs : List (String × String)) (st : Estado)
    (hf : cfg.filtrar_duplicados = true) :
    ((buscar cfg enrich get bs st).1.map (fun a => a.url)).Nodup :=
  (buscar_spec cfg enrich get hf bs st).1

/-- Witness for C10: a run whose single page lists the same apartment twice
still emits pairwise-distinct urls. -/
theorem C10_urls_sin_duplicados_witness :
    cfgBase.filtrar_duplicados = true ∧
    ((buscar cfgBase enrichNada getC10 barriosW ⟨[], []⟩).1.map (fun a => a.url)).Nodup :=
  ⟨rfl, C10_urls_sin_duplicados cfgBase enrichNada getC10 barriosW ⟨[], []⟩ rfl⟩
